import Mathlib

/-!
Shallow embedding of the SAR processing pipeline package
(`src/sar_processor`): date extraction, band resolution, the intensity
and coherence pipelines driving an abstract transform engine, and the
validation guard decorators.  Python strings are modelled as `String`
(manipulated through their character lists), Python exceptions as an
explicit `PyErr` error type threaded through `Except`, and the SNAP
engine as an oracle structure whose calls are recorded in an event
trace.
-/

/-- Python exceptions raised by the package.  `valueError` is raised by
`extract_date`, `fileNotFound` by the `validate_file_exists` decorator,
`runtimeError` by band resolution, and `engineError` stands for any
exception propagating out of an `esa_snappy` engine call. -/
inductive PyErr where
  | valueError (msg : String)
  | fileNotFound (path : String)
  | runtimeError (msg : String)
  | engineError (msg : String)
deriving DecidableEq, Repr

/-- Decidable equality for `Except`, needed to evaluate concrete runs. -/
instance {ε α : Type _} [DecidableEq ε] [DecidableEq α] :
    DecidableEq (Except ε α) := fun x y =>
  match x, y with
  | .ok a, .ok b =>
    if h : a = b then .isTrue (by rw [h])
    else .isFalse (by intro hq; cases hq; exact h rfl)
  | .error a, .error b =>
    if h : a = b then .isTrue (by rw [h])
    else .isFalse (by intro hq; cases hq; exact h rfl)
  | .ok _, .error _ => .isFalse (by intro hq; cases hq)
  | .error _, .ok _ => .isFalse (by intro hq; cases hq)

/-! ## Character-list string primitives (Python `str` operations) -/

/-- `startsL p l` is `l`'s having `p` as an initial segment
(Python `str.startswith` on character lists). -/
def startsL : List Char → List Char → Bool
  | [], _ => true
  | _ :: _, [] => false
  | a :: as, b :: bs => a == b && startsL as bs

/-- `endsL s l` : `l` ends with suffix `s` (Python `str.endswith`). -/
def endsL (s l : List Char) : Bool :=
  startsL s.reverse l.reverse

/-- `hasSub sub l` : `sub` occurs contiguously inside `l`
(Python's `in` operator on strings). -/
def hasSub (sub : List Char) : List Char → Bool
  | [] => sub.isEmpty
  | c :: t => startsL sub (c :: t) || hasSub sub t

/-- Split a character list on a single-character delimiter, Python
`str.split(sep)` semantics: `"" ↦ [""]`, `"_" ↦ ["",""]`. -/
def splitCh (sep : Char) : List Char → List (List Char)
  | [] => [[]]
  | c :: cs =>
    let r := splitCh sep cs
    if c == sep then [] :: r
    else
      match r with
      | [] => [[c]]
      | h :: t => (c :: h) :: t

/-- ASCII lower-casing of one character (Python `str.lower` on A–Z). -/
def lowCh (c : Char) : Char :=
  if 'A' ≤ c && c ≤ 'Z' then Char.ofNat (c.toNat + 32) else c

/-- Python `str.lower` over a character list (ASCII range). -/
def lowAll (l : List Char) : List Char := l.map lowCh

/-- Case-insensitive substring test: `sub` occurs in `name.lower()`. -/
def inLower (sub : String) (name : String) : Bool :=
  hasSub sub.data (lowAll name.data)

/-- `os.path.basename` (POSIX): the part after the last `'/'`. -/
def basename (l : List Char) : List Char :=
  (splitCh '/' l).getLastD []

/-- Join a list of strings with a separator (Python `sep.join(l)`). -/
def joinSep (sep : String) : List String → String
  | [] => ""
  | [x] => x
  | x :: y :: t => String.append x (String.append sep (joinSep sep (y :: t)))

/-- `os.path.join` restricted to the two-argument POSIX form used by the
package: `dir + "/" + name` (collapsing an empty or slash-ending dir). -/
def joinPath (dir name : String) : String :=
  if dir = "" then name
  else if endsL ['/'] dir.data then String.append dir name
  else String.append dir (String.append "/" name)

/-! ## Date extraction (`IntensityProcessor.extract_date`) -/

/-- ASCII digit test. -/
def isDig (c : Char) : Bool := '0' ≤ c && c ≤ '9'

/-- Numeric value of an ASCII digit character. -/
def digVal (c : Char) : Nat := c.toNat - 48

/-- Value of a list of digit characters read in base 10. -/
def digitsVal (l : List Char) : Nat :=
  l.foldl (fun acc c => acc * 10 + digVal c) 0

/-- Gregorian leap-year test, as implemented by `datetime`. -/
def isLeap (y : Nat) : Bool :=
  y % 4 == 0 && (y % 100 != 0 || y % 400 == 0)

/-- Days in a month, as validated by `datetime.strptime`. -/
def daysInMonth (y m : Nat) : Nat :=
  if m == 2 then (if isLeap y then 29 else 28)
  else if m == 4 || m == 6 || m == 9 || m == 11 then 30
  else 31

/-- `datetime.strptime(s, "%Y%m%d")` on an 8-character string: all eight
characters must be ASCII digits (4+2+2 split) and the resulting year,
month, day must form a valid calendar date with year ≥ 1. -/
def parseYYYYMMDD (cs : List Char) : Option (Nat × Nat × Nat) :=
  match cs with
  | [a, b, c, d, e, f, g, h] =>
    if isDig a && isDig b && isDig c && isDig d &&
       isDig e && isDig f && isDig g && isDig h then
      let y := digitsVal [a, b, c, d]
      let m := digitsVal [e, f]
      let dd := digitsVal [g, h]
      if 1 ≤ y && 1 ≤ m && m ≤ 12 && 1 ≤ dd && dd ≤ daysInMonth y m then
        some (y, m, dd)
      else none
    else none
  | _ => none

/-- Zero-padded decimal rendering on a fixed number of digits, as
`strftime` does for `%Y`, `%m`, `%d`. -/
def padDigits (width n : Nat) : List Char :=
  (List.range width).reverse.map
    (fun i => Char.ofNat (48 + n / 10 ^ i % 10))

/-- `strftime("%Y-%m-%d")` on a parsed date. -/
def formatDate (dt : Nat × Nat × Nat) : String :=
  String.mk (padDigits 4 dt.1 ++ '-' :: padDigits 2 dt.2.1 ++
             '-' :: padDigits 2 dt.2.2)

/-- The shape test of the token loop in `extract_date`:
`len(part) >= 9 and part.startswith('2') and 'T' in part`. -/
def tokenShape (part : List Char) : Bool :=
  decide (part.length ≥ 9) && startsL ['2'] part && part.contains 'T'

/-- One iteration of the token loop: if the shape test passes, try to
parse the first 8 characters and format them; `none` on any failure. -/
def tokenDate (part : List Char) : Option String :=
  if tokenShape part then (parseYYYYMMDD (part.take 8)).map formatDate
  else none

/-- Scan tokens in order for the first one yielding a date. -/
def firstDate : List (List Char) → Option String
  | [] => none
  | p :: ps =>
    match tokenDate p with
    | some d => some d
    | none => firstDate ps

/-- The token list `extract_date` scans: basename, split on `'_'`. -/
def tokensOf (zip_path : String) : List (List Char) :=
  splitCh '_' (basename zip_path.data)

/-- `IntensityProcessor.extract_date`: extract a `YYYY-MM-DD` date from
a Sentinel-1 identifier, or raise `ValueError`. -/
def extract_date (zip_path : String) : Except PyErr String :=
  match firstDate (tokensOf zip_path) with
  | some d => .ok d
  | none =>
    .error (.valueError
      (String.append "Could not extract date from filename: " zip_path))

/-! ## Band resolution -/

/-- VV candidate rule of the intensity loop:
`('vv' in name.lower()) and ('beta0' in name.lower() or 'intensity' in name.lower())`. -/
def isVVBand (name : String) : Bool :=
  inLower "vv" name && (inLower "beta0" name || inLower "intensity" name)

/-- VH candidate rule of the intensity loop. -/
def isVHBand (name : String) : Bool :=
  inLower "vh" name && (inLower "beta0" name || inLower "intensity" name)

/-- One iteration of the intensity band-selection loop: `if` assigns
`vv_name`, `elif` assigns `vh_name`, `else` keeps both. -/
def intensityStep (acc : Option String × Option String) (name : String) :
    Option String × Option String :=
  if isVVBand name then (some name, acc.2)
  else if isVHBand name then (acc.1, some name)
  else acc

/-- The band-selection loop of `generate_intensity_maps` (lines
128–142): fold over the catalog, overwriting `vv_name` on every VV
match and `vh_name` on every VH match that is not a VV match (`elif`). -/
def resolveIntensityBands (names : List String) : Option String × Option String :=
  names.foldl intensityStep (none, none)

/-- Coherence candidate rule: `"coh" in band_name.lower()`. -/
def isCohBand (name : String) : Bool := inLower "coh" name

/-- The coherence band loop of `generate_coherence_map` (lines 104–110):
first matching band in catalog order (the loop `break`s). -/
def resolveCoherenceBand (names : List String) : Option String :=
  names.find? isCohBand

/-! ## Configuration (`ProcessingConfig`) -/

/-- `config.settings.ProcessingConfig`, with the `__post_init__` default
for `polarizations` applied. -/
structure ProcessingConfig where
  utm_projection : String := "EPSG:32643"
  dem_name : String := "SRTM 3Sec"
  pixel_spacing : ℚ := 10
  subswath : String := "IW2"
  polarizations : List String := ["VV", "VH"]
  slope_calculation_method : String := "degrees"
  output_format : String := "GeoTIFF"
deriving DecidableEq, Repr

/-! ## Transform engine, products, and run traces -/

/-- A parameter value put into a SNAP `HashMap`. -/
inductive ParamVal where
  | s (v : String)
  | b (v : Bool)
  | i (v : Int)
  | f (v : ℚ)
  | strs (v : List String)
deriving DecidableEq, Repr

/-- Inputs of one engine invocation: a single product or the named map
used by Back-Geocoding, identified by product id. -/
inductive CallInputs where
  | one (pid : Nat)
  | named (m : List (String × Nat))
deriving DecidableEq, Repr

/-- One `GPF.createProduct` invocation: operator name, parameters, and
input product(s). -/
structure Call where
  op : String
  params : List (String × ParamVal)
  inputs : CallInputs
deriving DecidableEq, Repr

/-- Events of a pipeline run, in execution order.  `release` models
`product.dispose()`/`close()`; the refactored processors never emit it
(the legacy `full_processor.py` script did, via `products_to_close`). -/
inductive Event where
  | read (path : String) (pid : Nat)
  | apply (c : Call) (pid : Nat)
  | write (pid : Nat) (path : String) (fmt : String)
  | release (pid : Nat)
deriving DecidableEq, Repr

/-- An `AcquisitionProduct` handle: identity plus band-name catalog. -/
structure Product where
  pid : Nat
  bands : List String
deriving DecidableEq, Repr

/-- Mutable state of a run: fresh-id counter and the event trace. -/
structure RunState where
  nextId : Nat
  events : List Event
deriving DecidableEq, Repr

/-- The state at the start of a run. -/
def RunState.init : RunState := ⟨0, []⟩

/-- Product ids created during the run (reads and transform results). -/
def createdIds (st : RunState) : List Nat :=
  st.events.filterMap fun e =>
    match e with
    | .read _ pid => some pid
    | .apply _ pid => some pid
    | _ => none

/-- Product ids released during the run. -/
def releasedIds (st : RunState) : List Nat :=
  st.events.filterMap fun e =>
    match e with
    | .release pid => some pid
    | _ => none

/-- Oracle for the external transform engine (`esa_snappy`): what bands
each read or operator application yields, or the exception message it
raises; and whether each output write succeeds. -/
structure Engine where
  readBands : String → Except String (List String)
  applyBands : String → List (String × ParamVal) → CallInputs →
    Except String (List String)
  writeOk : String → String → Except String Unit

/-- Result of a pipeline step: Python-style value-or-raised-exception,
with the side effects performed so far retained in the state. -/
def StepRes (α : Type) : Type := Except PyErr α × RunState

/-- Sequential composition: on an exception the rest of the body is
skipped and the exception propagates (Python control flow). -/
def andThen {α β : Type} (r : StepRes α) (f : α → RunState → StepRes β) :
    StepRes β :=
  match r with
  | (.ok a, st) => f a st
  | (.error e, st) => (.error e, st)

/-- Lift a pure `Except` computation (no engine call) into a step. -/
def liftE {α : Type} (x : Except PyErr α) (st : RunState) : StepRes α :=
  (x, st)

/-- `ProductIO.readProduct`. -/
def readProduct (eng : Engine) (path : String) (st : RunState) :
    StepRes Product :=
  match eng.readBands path with
  | .ok bs =>
    (.ok ⟨st.nextId, bs⟩,
     ⟨st.nextId + 1, st.events ++ [.read path st.nextId]⟩)
  | .error msg => (.error (.engineError msg), st)

/-- `GPF.createProduct` with a single input product. -/
def gpf1 (eng : Engine) (op : String) (params : List (String × ParamVal))
    (p : Product) (st : RunState) : StepRes Product :=
  match eng.applyBands op params (.one p.pid) with
  | .ok bs =>
    (.ok ⟨st.nextId, bs⟩,
     ⟨st.nextId + 1,
      st.events ++ [.apply ⟨op, params, .one p.pid⟩ st.nextId]⟩)
  | .error msg => (.error (.engineError msg), st)

/-- `GPF.createProduct` with a named map of input products
(Back-Geocoding). -/
def gpfMap (eng : Engine) (op : String) (params : List (String × ParamVal))
    (srcs : List (String × Product)) (st : RunState) : StepRes Product :=
  match eng.applyBands op params (.named (srcs.map fun s => (s.1, s.2.pid))) with
  | .ok bs =>
    (.ok ⟨st.nextId, bs⟩,
     ⟨st.nextId + 1,
      st.events ++
        [.apply ⟨op, params, .named (srcs.map fun s => (s.1, s.2.pid))⟩
          st.nextId]⟩)
  | .error msg => (.error (.engineError msg), st)

/-- `ProductIO.writeProduct`. -/
def writeProduct (eng : Engine) (p : Product) (path fmt : String)
    (st : RunState) : StepRes Unit :=
  match eng.writeOk path fmt with
  | .ok _ => (.ok (), ⟨st.nextId, st.events ++ [.write p.pid path fmt]⟩)
  | .error msg => (.error (.engineError msg), st)

/-- `product.dispose()` — present in the embedding of the engine API,
but invoked by neither refactored pipeline. -/
def closeProduct (p : Product) (st : RunState) : StepRes Unit :=
  (.ok (), ⟨st.nextId, st.events ++ [.release p.pid]⟩)

/-! ## The intensity pipeline (`IntensityProcessor.generate_intensity_maps`) -/

/-- Parameters of the intensity TOPSAR-Split stage. -/
def intensitySplitParams (cfg : ProcessingConfig) : List (String × ParamVal) :=
  [("subswath", .s cfg.subswath),
   ("selectedPolarisations", .s (joinSep "," cfg.polarizations))]

/-- Body of `generate_intensity_maps` (lines 77–166), after the guard
decorators: the seven-stage transform chain, band resolution, and the
two band-select-and-write steps.  The `try/except` re-raises the caught
exception unchanged after logging, so errors propagate unmodified. -/
def generate_intensity_maps (eng : Engine) (cfg : ProcessingConfig)
    (input_zip_path output_dir : String) (st : RunState) :
    StepRes (String × String) :=
  andThen (liftE (extract_date input_zip_path) st) fun date_str st =>
  andThen (readProduct eng input_zip_path st) fun product st =>
  andThen (gpf1 eng "TOPSAR-Split" (intensitySplitParams cfg) product st)
    fun product st =>
  andThen (gpf1 eng "Apply-Orbit-File" [] product st) fun product st =>
  andThen (gpf1 eng "ThermalNoiseRemoval" [] product st) fun product st =>
  andThen (gpf1 eng "Calibration" [("outputBetaBand", .b true)] product st)
    fun product st =>
  andThen (gpf1 eng "TOPSAR-Deburst" [] product st) fun product st =>
  andThen (gpf1 eng "Speckle-Filter"
      [("filter", .s "Refined Lee"), ("filterSizeX", .i 5),
       ("filterSizeY", .i 5)] product st) fun product st =>
  andThen (gpf1 eng "Terrain-Correction"
      [("demName", .s cfg.dem_name),
       ("mapProjection", .s cfg.utm_projection),
       ("pixelSpacingInMeter", .f cfg.pixel_spacing)] product st)
    fun product_final st =>
  match resolveIntensityBands product_final.bands with
  | (some vv_name, some vh_name) =>
    let vv_output_path := joinPath output_dir (String.append date_str "_vv.tif")
    andThen (gpf1 eng "BandSelect" [("sourceBands", .strs [vv_name])]
        product_final st) fun vv_product st =>
    andThen (writeProduct eng vv_product vv_output_path cfg.output_format st)
      fun _ st =>
    let vh_output_path := joinPath output_dir (String.append date_str "_vh.tif")
    andThen (gpf1 eng "BandSelect" [("sourceBands", .strs [vh_name])]
        product_final st) fun vh_product st =>
    andThen (writeProduct eng vh_product vh_output_path cfg.output_format st)
      fun _ st =>
    (.ok (vv_output_path, vh_output_path), st)
  | _ =>
    (.error (.runtimeError "Could not find VV or VH intensity bands"), st)

/-! ## The coherence pipeline (`CoherenceProcessor.generate_coherence_map`) -/

/-- Parameters of the coherence TOPSAR-Split stage: the single
`polarization` argument, not the configured polarization list. -/
def coherenceSplitParams (cfg : ProcessingConfig) (polarization : String) :
    List (String × ParamVal) :=
  [("subswath", .s cfg.subswath),
   ("selectedPolarisations", .s polarization)]

/-- Body of `generate_coherence_map` (lines 60–146), after the guard
decorators. -/
def generate_coherence_map (eng : Engine) (cfg : ProcessingConfig)
    (master_zip_path slave_zip_path output_dir : String)
    (polarization : String := "VV") (st : RunState := RunState.init) :
    StepRes String :=
  andThen (liftE (extract_date master_zip_path) st) fun date1_str st =>
  andThen (liftE (extract_date slave_zip_path) st) fun date2_str st =>
  let coherence_filename :=
    String.append date1_str
      (String.append "_" (String.append date2_str "_coherence.tif"))
  andThen (readProduct eng master_zip_path st) fun master st =>
  andThen (readProduct eng slave_zip_path st) fun slave st =>
  andThen (gpf1 eng "TOPSAR-Split" (coherenceSplitParams cfg polarization)
      master st) fun master st =>
  andThen (gpf1 eng "TOPSAR-Split" (coherenceSplitParams cfg polarization)
      slave st) fun slave st =>
  andThen (gpf1 eng "Apply-Orbit-File" [] master st) fun master st =>
  andThen (gpf1 eng "Apply-Orbit-File" [] slave st) fun slave st =>
  andThen (gpfMap eng "Back-Geocoding" [("demName", .s cfg.dem_name)]
      [("Master", master), ("Slave", slave)] st) fun product st =>
  andThen (gpf1 eng "Interferogram" [] product st) fun product st =>
  match resolveCoherenceBand product.bands with
  | none => (.error (.runtimeError "No coherence band found in product!"), st)
  | some coherence_band_name =>
    andThen (gpf1 eng "BandSelect"
        [("sourceBands", .strs [coherence_band_name])] product st)
      fun product_clean st =>
    andThen (gpf1 eng "TOPSAR-Deburst" [] product_clean st)
      fun product_deburst st =>
    andThen (gpf1 eng "Terrain-Correction"
        [("demName", .s cfg.dem_name),
         ("mapProjection", .s cfg.utm_projection)] product_deburst st)
      fun product_final st =>
    let output_path := joinPath output_dir coherence_filename
    andThen (writeProduct eng product_final output_path cfg.output_format st)
      fun _ st =>
    (.ok output_path, st)

/-! ## Validation guards (`utils/validation.py`) and entry points -/

/-- The filesystem: set of existing paths (files or directories),
membership by exact path string. -/
structure FS where
  entries : List String
deriving DecidableEq, Repr

/-- Suffix test of `validate_file_exists`:
`str(arg).endswith(('.zip', '.tif'))`. -/
def inputSuffix (a : String) : Bool :=
  endsL ".zip".data a.data || endsL ".tif".data a.data

/-- Suffix test of `validate_output_dir`:
`str(path).endswith(('.zip', '.tif', '.nc'))`. -/
def knownFileSuffix (a : String) : Bool :=
  endsL ".zip".data a.data || endsL ".tif".data a.data ||
  endsL ".nc".data a.data

/-- All `"/"`-separated ancestor prefixes of a path, the path itself
last. -/
def pathPrefixes (p : String) : List String :=
  ((List.range ((splitCh '/' p.data).length - 1)).map fun k =>
    joinSep "/" (((splitCh '/' p.data).map String.mk).take (k + 1))) ++ [p]

/-- `Path(p).mkdir(parents=True, exist_ok=True)`: create the path and
any missing ancestors; a total operation, never failing when the
directory already exists. -/
def mkdirP (fs : FS) (p : String) : FS :=
  ⟨fs.entries ++ (pathPrefixes p).filter fun q => !fs.entries.contains q⟩

/-- The `validate_file_exists` decorator body over the positional string
arguments: raise `FileNotFoundError` on the first `.zip`/`.tif`
argument missing from the filesystem. -/
def validate_file_exists (fs : FS) (args : List String) : Except PyErr Unit :=
  match args.find? (fun a => inputSuffix a && !fs.entries.contains a) with
  | some a =>
    .error (.fileNotFound (String.append "Input file not found: " a))
  | none => .ok ()

/-- The `validate_output_dir` decorator body: ensure every positional
string argument not carrying a known file suffix exists as a
directory. -/
def validate_output_dir (fs : FS) (args : List String) : FS :=
  args.foldl (fun acc a => if knownFileSuffix a then acc else mkdirP acc a) fs

/-- The two stacked decorators, outermost (`validate_file_exists`)
first. -/
def runGuards (fs : FS) (args : List String) : Except PyErr FS :=
  match validate_file_exists fs args with
  | .error e => .error e
  | .ok _ => .ok (validate_output_dir fs args)

/-- Outcome of a guarded entry-point call: the Python result, the
filesystem after the guards, and the engine-event trace of the body. -/
structure EntryResult (α : Type) where
  result : Except PyErr α
  fs : FS
  run : RunState
deriving DecidableEq, Repr

/-- The public `generate_intensity_maps` entry point: decorators over
the positional arguments `[input_zip_path, output_dir]`, then the
pipeline body. -/
def intensity_entry (eng : Engine) (cfg : ProcessingConfig) (fs : FS)
    (input_zip_path output_dir : String) : EntryResult (String × String) :=
  match runGuards fs [input_zip_path, output_dir] with
  | .error e => ⟨.error e, fs, RunState.init⟩
  | .ok fs2 =>
    let r := generate_intensity_maps eng cfg input_zip_path output_dir
      RunState.init
    ⟨r.1, fs2, r.2⟩

/-- The public `generate_coherence_map` entry point called with three
positional arguments (`process_pair` style); `polarization` stays at
its default `"VV"` and is not seen by the decorators. -/
def coherence_entry3 (eng : Engine) (cfg : ProcessingConfig) (fs : FS)
    (master_zip_path slave_zip_path output_dir : String) :
    EntryResult String :=
  match runGuards fs [master_zip_path, slave_zip_path, output_dir] with
  | .error e => ⟨.error e, fs, RunState.init⟩
  | .ok fs2 =>
    let r := generate_coherence_map eng cfg master_zip_path slave_zip_path
      output_dir "VV" RunState.init
    ⟨r.1, fs2, r.2⟩

/-- The public `generate_coherence_map` entry point called with all four
positional arguments, so the polarization string is scanned by both
decorators. -/
def coherence_entry4 (eng : Engine) (cfg : ProcessingConfig) (fs : FS)
    (master_zip_path slave_zip_path output_dir polarization : String) :
    EntryResult String :=
  match runGuards fs
      [master_zip_path, slave_zip_path, output_dir, polarization] with
  | .error e => ⟨.error e, fs, RunState.init⟩
  | .ok fs2 =>
    let r := generate_coherence_map eng cfg master_zip_path slave_zip_path
      output_dir polarization RunState.init
    ⟨r.1, fs2, r.2⟩

/-! ## Concrete engines for counterexamples and witnesses -/

/-- An engine on which every call succeeds and every product carries the
band catalog `bands`. -/
def mkEngine (bands : List String) : Engine where
  readBands := fun _ => .ok bands
  applyBands := fun _ _ _ => .ok bands
  writeOk := fun _ _ => .ok ()

/-- An engine whose operator applications all raise `msg`. -/
def failEngine (msg : String) : Engine where
  readBands := fun _ => .ok []
  applyBands := fun _ _ _ => .error msg
  writeOk := fun _ _ => .ok ()

/-- An engine failing exactly at the Terrain-Correction stage. -/
def failTCEngine (bands : List String) (msg : String) : Engine where
  readBands := fun _ => .ok bands
  applyBands := fun op _ _ =>
    if op = "Terrain-Correction" then .error msg else .ok bands
  writeOk := fun _ _ => .ok ()

/-! ## Sample inputs and spec-side (refinement) definitions -/

/-- The master scene identifier of spec §8. -/
def sampleZip : String :=
  "S1A_IW_SLC__1SDV_20240720T004052_20240720T004119_054837_06AD9C_26F2.zip"

/-- The slave scene identifier of spec §8. -/
def sampleSlaveZip : String :=
  "S1A_IW_SLC__1SDV_20240801T004052_20240801T004119_055012_06B3B7_C85D.zip"

/-- Modelled from the spec, for comparison with the code (claim C2):
"The first matching band per polarization, in catalog order, is
selected." -/
def specIntensityFirst (names : List String) : Option String × Option String :=
  (names.find? isVVBand, names.find? isVHBand)

/-- Modelled from the spec, for comparison with the code (claim C5):
the `{8 digits}T...` token shape of §8 — at least nine characters, the
first eight ASCII digits, the ninth `'T'`. -/
def specToken8T (t : List Char) : Bool :=
  decide (t.length ≥ 9 ∧ (∀ c ∈ t.take 8, isDig c = true) ∧
          (t.drop 8).take 1 = ['T'])

/-- Last element of the catalog satisfying `p`, if any: the value a
bare overwrite-in-a-loop assignment holds at loop exit. -/
def lastFind (p : String → Bool) : List String → Option String
  | [] => none
  | n :: ns =>
    match lastFind p ns with
    | some x => some x
    | none => if p n then some n else none

/-- `orO o a` falls back to `a` when `o` is `none`. -/
def orO (o a : Option String) : Option String :=
  match o with
  | some x => some x
  | none => a

/-- A VH match that the `elif` actually reaches: matches the VH rule
and not the VV rule. -/
def isVHOnlyBand (name : String) : Bool :=
  !isVVBand name && isVHBand name

/-- Trace extension: `st2`'s event list extends `st`'s by a tail whose
every event satisfies `P`. -/
def EvExt (P : Event → Prop) (st st2 : RunState) : Prop :=
  ∃ tail, st2.events = st.events ++ tail ∧ ∀ e ∈ tail, P e

/-- The (operator, parameter) shapes of every `GPF.createProduct` call
the coherence pipeline body can issue, for a given configuration and
polarization argument. -/
def CohApplyShape (cfg : ProcessingConfig) (polarization : String)
    (op : String) (params : List (String × ParamVal)) : Prop :=
  (op = "TOPSAR-Split" ∧ params = coherenceSplitParams cfg polarization) ∨
  (op = "Apply-Orbit-File" ∧ params = []) ∨
  (op = "Back-Geocoding" ∧ params = [("demName", .s cfg.dem_name)]) ∨
  (op = "Interferogram" ∧ params = []) ∨
  (op = "BandSelect" ∧ ∃ bn, params = [("sourceBands", .strs [bn])]) ∨
  (op = "TOPSAR-Deburst" ∧ params = []) ∨
  (op = "Terrain-Correction" ∧
    params = [("demName", .s cfg.dem_name),
              ("mapProjection", .s cfg.utm_projection)])

/-! ## Helper lemmas: trace extension -/

theorem evExt_self {P : Event → Prop} {st : RunState} : EvExt P st st :=
  ⟨[], (List.append_nil _).symm, by simp⟩

theorem evExt_trans {P : Event → Prop} {st1 st2 st3 : RunState}
    (h1 : EvExt P st1 st2) (h2 : EvExt P st2 st3) : EvExt P st1 st3 := by
  obtain ⟨t1, e1, p1⟩ := h1
  obtain ⟨t2, e2, p2⟩ := h2
  refine ⟨t1 ++ t2, by rw [e2, e1, List.append_assoc], ?_⟩
  intro e he
  rcases List.mem_append.mp he with h | h
  · exact p1 e h
  · exact p2 e h

theorem evExt_andThen {α β : Type} {P : Event → Prop} {st : RunState}
    {r : StepRes α} {f : α → RunState → StepRes β}
    (h1 : EvExt P st r.2) (h2 : ∀ a st2, EvExt P st2 (f a st2).2) :
    EvExt P st (andThen r f).2 := by
  obtain ⟨res, st2⟩ := r
  cases res with
  | ok a => exact evExt_trans h1 (h2 a st2)
  | error e => exact h1

theorem evExt_liftE {α : Type} {P : Event → Prop} {st : RunState}
    {x : Except PyErr α} : EvExt P st (liftE x st).2 :=
  evExt_self

theorem evExt_readProduct {P : Event → Prop} {st : RunState}
    (eng : Engine) (path : String)
    (h : ∀ q pid, P (.read q pid)) :
    EvExt P st (readProduct eng path st).2 := by
  unfold readProduct
  cases eng.readBands path with
  | ok bs =>
    exact ⟨[.read path st.nextId], rfl, by
      intro e he
      rw [List.mem_singleton] at he
      rw [he]; exact h _ _⟩
  | error msg => exact evExt_self

theorem evExt_gpf1 {P : Event → Prop} {st : RunState}
    (eng : Engine) (op : String) (params : List (String × ParamVal))
    (p : Product)
    (h : ∀ inp pid, P (.apply ⟨op, params, inp⟩ pid)) :
    EvExt P st (gpf1 eng op params p st).2 := by
  unfold gpf1
  cases eng.applyBands op params (.one p.pid) with
  | ok bs =>
    exact ⟨[.apply ⟨op, params, .one p.pid⟩ st.nextId], rfl, by
      intro e he
      rw [List.mem_singleton] at he
      rw [he]; exact h _ _⟩
  | error msg => exact evExt_self

theorem evExt_gpfMap {P : Event → Prop} {st : RunState}
    (eng : Engine) (op : String) (params : List (String × ParamVal))
    (srcs : List (String × Product))
    (h : ∀ inp pid, P (.apply ⟨op, params, inp⟩ pid)) :
    EvExt P st (gpfMap eng op params srcs st).2 := by
  unfold gpfMap
  cases eng.applyBands op params (.named (srcs.map fun s => (s.1, s.2.pid))) with
  | ok bs =>
    exact ⟨[.apply ⟨op, params,
              .named (srcs.map fun s => (s.1, s.2.pid))⟩ st.nextId], rfl, by
      intro e he
      rw [List.mem_singleton] at he
      rw [he]; exact h _ _⟩
  | error msg => exact evExt_self

theorem evExt_writeProduct {P : Event → Prop} {st : RunState}
    (eng : Engine) (p : Product) (path fmt : String)
    (h : ∀ pid q g, P (.write pid q g)) :
    EvExt P st (writeProduct eng p path fmt st).2 := by
  unfold writeProduct
  cases eng.writeOk path fmt with
  | ok u =>
    exact ⟨[.write p.pid path fmt], rfl, by
      intro e he
      rw [List.mem_singleton] at he
      rw [he]; exact h _ _ _⟩
  | error msg => exact evExt_self

/-- Every event the intensity-pipeline body adds to the trace is an
engine read, an operator application, or a write. -/
theorem evExt_intensity {P : Event → Prop}
    (eng : Engine) (cfg : ProcessingConfig) (i o : String) (st : RunState)
    (hr : ∀ q pid, P (.read q pid))
    (ha : ∀ c pid, P (.apply c pid))
    (hw : ∀ pid q g, P (.write pid q g)) :
    EvExt P st (generate_intensity_maps eng cfg i o st).2 := by
  unfold generate_intensity_maps
  refine evExt_andThen evExt_liftE ?_
  intro d st1
  refine evExt_andThen (evExt_readProduct eng i hr) ?_
  intro p st2
  refine evExt_andThen (evExt_gpf1 eng _ _ _ fun inp pid => ha _ _) ?_
  intro p st3
  refine evExt_andThen (evExt_gpf1 eng _ _ _ fun inp pid => ha _ _) ?_
  intro p st4
  refine evExt_andThen (evExt_gpf1 eng _ _ _ fun inp pid => ha _ _) ?_
  intro p st5
  refine evExt_andThen (evExt_gpf1 eng _ _ _ fun inp pid => ha _ _) ?_
  intro p st6
  refine evExt_andThen (evExt_gpf1 eng _ _ _ fun inp pid => ha _ _) ?_
  intro p st7
  refine evExt_andThen (evExt_gpf1 eng _ _ _ fun inp pid => ha _ _) ?_
  intro p st8
  refine evExt_andThen (evExt_gpf1 eng _ _ _ fun inp pid => ha _ _) ?_
  intro pf st9
  rcases hres : resolveIntensityBands pf.bands with ⟨v1, v2⟩
  cases v1 with
  | none => cases v2 <;> exact evExt_self
  | some vv =>
    cases v2 with
    | none => exact evExt_self
    | some vh =>
      refine evExt_andThen (evExt_gpf1 eng _ _ _ fun inp pid => ha _ _) ?_
      intro p st10
      refine evExt_andThen (evExt_writeProduct eng _ _ _ hw) ?_
      intro u st11
      refine evExt_andThen (evExt_gpf1 eng _ _ _ fun inp pid => ha _ _) ?_
      intro p st12
      refine evExt_andThen (evExt_writeProduct eng _ _ _ hw) ?_
      intro u st13
      exact evExt_self

/-- Every event the coherence-pipeline body adds to the trace is an
engine read, a write, or an operator application whose
operator/parameter shape is one of `CohApplyShape`. -/
theorem evExt_coherence {P : Event → Prop}
    (eng : Engine) (cfg : ProcessingConfig) (m s o polarization : String)
    (st : RunState)
    (hr : ∀ q pid, P (.read q pid))
    (ha : ∀ op params inp pid, CohApplyShape cfg polarization op params →
      P (.apply ⟨op, params, inp⟩ pid))
    (hw : ∀ pid q g, P (.write pid q g)) :
    EvExt P st (generate_coherence_map eng cfg m s o polarization st).2 := by
  unfold generate_coherence_map
  refine evExt_andThen evExt_liftE ?_
  intro d1 st1
  refine evExt_andThen evExt_liftE ?_
  intro d2 st2
  refine evExt_andThen (evExt_readProduct eng m hr) ?_
  intro master st3
  refine evExt_andThen (evExt_readProduct eng s hr) ?_
  intro slave st4
  refine evExt_andThen
    (evExt_gpf1 eng _ _ _ fun inp pid => ha _ _ _ _ (Or.inl ⟨rfl, rfl⟩)) ?_
  intro master st5
  refine evExt_andThen
    (evExt_gpf1 eng _ _ _ fun inp pid => ha _ _ _ _ (Or.inl ⟨rfl, rfl⟩)) ?_
  intro slave st6
  refine evExt_andThen
    (evExt_gpf1 eng _ _ _ fun inp pid =>
      ha _ _ _ _ (Or.inr (Or.inl ⟨rfl, rfl⟩))) ?_
  intro master st7
  refine evExt_andThen
    (evExt_gpf1 eng _ _ _ fun inp pid =>
      ha _ _ _ _ (Or.inr (Or.inl ⟨rfl, rfl⟩))) ?_
  intro slave st8
  refine evExt_andThen
    (evExt_gpfMap eng _ _ _ fun inp pid =>
      ha _ _ _ _ (Or.inr (Or.inr (Or.inl ⟨rfl, rfl⟩)))) ?_
  intro product st9
  refine evExt_andThen
    (evExt_gpf1 eng _ _ _ fun inp pid =>
      ha _ _ _ _ (Or.inr (Or.inr (Or.inr (Or.inl ⟨rfl, rfl⟩))))) ?_
  intro product st10
  rcases hres : resolveCoherenceBand product.bands with _ | bn
  · exact evExt_self
  · refine evExt_andThen
      (evExt_gpf1 eng _ _ _ fun inp pid =>
        ha _ _ _ _
          (Or.inr (Or.inr (Or.inr (Or.inr (Or.inl ⟨rfl, bn, rfl⟩)))))) ?_
    intro pc st11
    refine evExt_andThen
      (evExt_gpf1 eng _ _ _ fun inp pid =>
        ha _ _ _ _
          (Or.inr (Or.inr (Or.inr (Or.inr (Or.inr (Or.inl ⟨rfl, rfl⟩))))))) ?_
    intro pd st12
    refine evExt_andThen
      (evExt_gpf1 eng _ _ _ fun inp pid =>
        ha _ _ _ _
          (Or.inr (Or.inr (Or.inr (Or.inr (Or.inr (Or.inr ⟨rfl, rfl⟩))))))) ?_
    intro pf st13
    refine evExt_andThen (evExt_writeProduct eng _ _ _ hw) ?_
    intro u st14
    exact evExt_self

/-! ## Helper lemmas: released handles -/

/-- Neither pipeline primitive chain emits a `release` event, so the
released-id list of an intensity run is empty. -/
theorem releasedIds_intensity_nil (eng : Engine) (cfg : ProcessingConfig)
    (i o : String) :
    releasedIds (generate_intensity_maps eng cfg i o RunState.init).2 = [] := by
  obtain ⟨tail, he, hp⟩ :=
    evExt_intensity (P := fun e => ∀ pid, e ≠ .release pid) eng cfg i o
      RunState.init (by intro q pid pid2; simp) (by intro c pid pid2; simp)
      (by intro pid q g pid2; simp)
  unfold releasedIds
  rw [he]
  simp only [RunState.init, List.nil_append]
  rw [List.filterMap_eq_nil_iff]
  intro e hemem
  cases e with
  | read q pid => rfl
  | apply c pid => rfl
  | write pid q g => rfl
  | release pid => exact (hp _ hemem pid rfl).elim

/-- The coherence run likewise never emits a `release` event. -/
theorem releasedIds_coherence_nil (eng : Engine) (cfg : ProcessingConfig)
    (m s o polarization : String) :
    releasedIds
      (generate_coherence_map eng cfg m s o polarization RunState.init).2
      = [] := by
  obtain ⟨tail, he, hp⟩ :=
    evExt_coherence (P := fun e => ∀ pid, e ≠ .release pid) eng cfg m s o
      polarization RunState.init (by intro q pid pid2; simp)
      (by intro op params inp pid hsh pid2; simp)
      (by intro pid q g pid2; simp)
  unfold releasedIds
  rw [he]
  simp only [RunState.init, List.nil_append]
  rw [List.filterMap_eq_nil_iff]
  intro e hemem
  cases e with
  | read q pid => rfl
  | apply c pid => rfl
  | write pid q g => rfl
  | release pid => exact (hp _ hemem pid rfl).elim

/-! ## Helper lemmas: the intensity selection loop keeps the last match -/

/-- Unrolling the fold of the intensity selection loop: each component
is the last matching band of the remaining catalog, falling back to the
accumulator. -/
theorem foldl_intensityStep (names : List String) :
    ∀ acc : Option String × Option String,
      names.foldl intensityStep acc =
        (orO (lastFind isVVBand names) acc.1,
         orO (lastFind isVHOnlyBand names) acc.2) := by
  induction names with
  | nil => intro acc; simp [lastFind, orO]
  | cons n ns ih =>
    intro acc
    rw [List.foldl_cons, ih]
    cases h1 : lastFind isVVBand ns <;>
      cases h2 : lastFind isVHOnlyBand ns <;>
        cases hv : isVVBand n <;> cases hh : isVHBand n <;>
          simp [intensityStep, lastFind, orO, h1, h2, hv, hh, isVHOnlyBand]

/-- The loop of lines 133–137 selects, for each role, the last matching
band (VH matches behind the `elif`, so only when the VV rule fails). -/
theorem resolveIntensityBands_eq_lastFind (names : List String) :
    resolveIntensityBands names =
      (lastFind isVVBand names, lastFind isVHOnlyBand names) := by
  unfold resolveIntensityBands
  rw [foldl_intensityStep]
  cases h1 : lastFind isVVBand names <;>
    cases h2 : lastFind isVHOnlyBand names <;> simp [orO]

/-! ## Helper lemmas: first-match characterizations -/

/-- `List.find?` returns `b` exactly when `b` is the first element
satisfying `p`. -/
theorem find?_eq_some_first {p : String → Bool} {l : List String} {b : String} :
    l.find? p = some b ↔
      ∃ l1 l2, l = l1 ++ b :: l2 ∧ (∀ a ∈ l1, p a = false) ∧ p b = true := by
  induction l with
  | nil =>
    simp only [List.find?_nil]
    constructor
    · intro h; cases h
    · rintro ⟨l1, l2, heq, -, -⟩
      exact absurd heq.symm (List.append_ne_nil_of_right_ne_nil l1 (by simp))
  | cons x xs ih =>
    cases hx : p x with
    | true =>
      rw [List.find?_cons_of_pos _ hx]
      constructor
      · intro h
        injection h with h
        subst h
        exact ⟨[], xs, by simp, by simp, hx⟩
      · rintro ⟨l1, l2, heq, hall, hb⟩
        cases l1 with
        | nil =>
          simp only [List.nil_append, List.cons.injEq] at heq
          rw [heq.1]
        | cons a t =>
          rw [List.cons_append, List.cons.injEq] at heq
          have hax := hall a (by simp)
          rw [← heq.1] at hax
          rw [hax] at hx
          simp at hx
    | false =>
      rw [List.find?_cons_of_neg _ (by simp [hx]), ih]
      constructor
      · rintro ⟨l1, l2, heq, hall, hb⟩
        refine ⟨x :: l1, l2, by rw [List.cons_append, heq], ?_, hb⟩
        intro a ha
        rcases List.mem_cons.mp ha with rfl | ha
        · exact hx
        · exact hall a ha
      · rintro ⟨l1, l2, heq, hall, hb⟩
        cases l1 with
        | nil =>
          simp only [List.nil_append, List.cons.injEq] at heq
          rw [heq.1] at hx
          rw [hx] at hb
          cases hb
        | cons a t =>
          rw [List.cons_append, List.cons.injEq] at heq
          refine ⟨t, l2, heq.2, ?_, hb⟩
          intro u hu
          exact hall u (by rw [List.mem_cons]; exact Or.inr hu)

/-- The token scan fails exactly when every token fails. -/
theorem firstDate_eq_none {l : List (List Char)} :
    firstDate l = none ↔ ∀ t ∈ l, tokenDate t = none := by
  induction l with
  | nil => simp [firstDate]
  | cons t ts ih => cases h : tokenDate t <;> simp [firstDate, h, ih]

/-- The token scan returns the date of the first token that yields
one. -/
theorem firstDate_eq_some {l : List (List Char)} {d : String} :
    firstDate l = some d ↔
      ∃ l1 t l2, l = l1 ++ t :: l2 ∧ (∀ u ∈ l1, tokenDate u = none) ∧
        tokenDate t = some d := by
  induction l with
  | nil =>
    simp only [firstDate]
    constructor
    · intro h; cases h
    · rintro ⟨l1, t, l2, heq, -, -⟩
      exact absurd heq.symm (List.append_ne_nil_of_right_ne_nil l1 (by simp))
  | cons u us ih =>
    cases hu : tokenDate u with
    | some d2 =>
      simp only [firstDate, hu]
      constructor
      · intro h
        injection h with h
        exact ⟨[], u, us, rfl, by simp, by rw [hu, h]⟩
      · rintro ⟨l1, t, l2, heq, hall, ht⟩
        cases l1 with
        | nil =>
          simp only [List.nil_append, List.cons.injEq] at heq
          rw [heq.1] at hu
          rw [hu] at ht
          injection ht with ht
          rw [ht]
        | cons a l1t =>
          rw [List.cons_append, List.cons.injEq] at heq
          have hnone := hall a (by simp)
          rw [← heq.1] at hnone
          rw [hnone] at hu
          cases hu
    | none =>
      simp only [firstDate, hu]
      rw [ih]
      constructor
      · rintro ⟨l1, t, l2, heq, hall, ht⟩
        refine ⟨u :: l1, t, l2, by rw [List.cons_append, heq], ?_, ht⟩
        intro v hv
        rcases List.mem_cons.mp hv with rfl | hv
        · exact hu
        · exact hall v hv
      · rintro ⟨l1, t, l2, heq, hall, ht⟩
        cases l1 with
        | nil =>
          simp only [List.nil_append, List.cons.injEq] at heq
          rw [heq.1] at hu
          rw [hu] at ht
          cases ht
        | cons a l1t =>
          rw [List.cons_append, List.cons.injEq] at heq
          refine ⟨l1t, t, l2, heq.2, ?_, ht⟩
          intro v hv
          exact hall v (by rw [List.mem_cons]; exact Or.inr hv)

/-- A token of the spec's `{8 digits}T...` shape that starts with `'2'`
and parses passes the code's shape test and yields its date. -/
theorem tokenDate_of_specToken {t : List Char} {dt : Nat × Nat × Nat}
    (h8 : specToken8T t = true) (h2 : startsL ['2'] t = true)
    (hp : parseYYYYMMDD (t.take 8) = some dt) :
    tokenDate t = some (formatDate dt) := by
  obtain ⟨hlen, -, hT⟩ := of_decide_eq_true h8
  have hdrop : ∃ rest, t.drop 8 = 'T' :: rest := by
    cases hd : t.drop 8 with
    | nil => rw [hd] at hT; cases hT
    | cons c cs =>
      rw [hd] at hT
      simp only [List.take_succ_cons, List.take_zero, List.cons.injEq] at hT
      exact ⟨cs, by rw [hT.1]⟩
  obtain ⟨rest, hrest⟩ := hdrop
  have hmem : 'T' ∈ t := by
    have hm2 : 'T' ∈ t.take 8 ++ t.drop 8 :=
      List.mem_append.mpr
        (Or.inr (by rw [hrest]; exact List.mem_cons_self _ _))
    rw [List.take_append_drop] at hm2
    exact hm2
  have hshape : tokenShape t = true := by
    unfold tokenShape
    rw [Bool.and_eq_true, Bool.and_eq_true]
    refine ⟨⟨decide_eq_true hlen, h2⟩, ?_⟩
    rw [List.elem_iff]
    exact hmem
  unfold tokenDate
  rw [hshape, hp]
  simp

/-! ## Helper lemmas: guards -/

/-- `mkdir` leaves existing entries in place. -/
theorem mem_mkdirP_mono {fs : FS} {q : String} (h : q ∈ fs.entries)
    (p : String) : q ∈ (mkdirP fs p).entries :=
  List.mem_append.mpr (Or.inl h)

/-- After `mkdir`, the requested path exists. -/
theorem mem_mkdirP_self (fs : FS) (p : String) : p ∈ (mkdirP fs p).entries := by
  unfold mkdirP
  by_cases h : p ∈ fs.entries
  · exact List.mem_append.mpr (Or.inl h)
  · refine List.mem_append.mpr (Or.inr ?_)
    rw [List.mem_filter]
    refine ⟨?_, ?_⟩
    · unfold pathPrefixes
      exact List.mem_append.mpr (Or.inr (List.mem_singleton.mpr rfl))
    · simp [List.elem_iff, h]

/-- `mkdir(parents=True, exist_ok=True)` is idempotent: re-ensuring an
existing directory changes nothing and in particular cannot fail. -/
theorem mkdirP_idem (fs : FS) (p : String) :
    mkdirP (mkdirP fs p) p = mkdirP fs p := by
  have hall : ∀ q ∈ pathPrefixes p, q ∈ (mkdirP fs p).entries := by
    intro q hq
    unfold mkdirP
    by_cases h : q ∈ fs.entries
    · exact List.mem_append.mpr (Or.inl h)
    · refine List.mem_append.mpr (Or.inr ?_)
      rw [List.mem_filter]
      exact ⟨hq, by simp [List.elem_iff, h]⟩
  have hfil :
      (pathPrefixes p).filter
        (fun q => !(mkdirP fs p).entries.contains q) = [] := by
    rw [List.filter_eq_nil_iff]
    intro q hq
    simp [List.elem_iff, hall q hq]
  show FS.mk _ = _
  rw [hfil, List.append_nil]

/-- The directory-ensure pass preserves existing entries. -/
theorem mem_vod_mono :
    ∀ (args : List String) (fs : FS) {q : String}, q ∈ fs.entries →
      q ∈ (validate_output_dir fs args).entries := by
  intro args
  induction args with
  | nil => intro fs q h; exact h
  | cons x xs ih =>
    intro fs q h
    unfold validate_output_dir
    rw [List.foldl_cons]
    refine ih _ ?_
    by_cases hk : knownFileSuffix x
    · simpa [hk] using h
    · simp only [hk, Bool.false_eq_true, if_false]
      exact mem_mkdirP_mono h x

/-- Every non-suffix argument exists as a directory after the
directory-ensure pass. -/
theorem mem_vod_of_arg :
    ∀ (args : List String) (fs : FS) (a : String), a ∈ args →
      knownFileSuffix a = false →
      a ∈ (validate_output_dir fs args).entries := by
  intro args
  induction args with
  | nil => intro fs a ha; exact absurd ha (List.not_mem_nil a)
  | cons x xs ih =>
    intro fs a ha hk
    unfold validate_output_dir
    rw [List.foldl_cons]
    rcases List.mem_cons.mp ha with rfl | ha
    · refine mem_vod_mono xs _ ?_
      simp only [hk, Bool.false_eq_true, if_false]
      exact mem_mkdirP_self fs a
    · exact ih _ a ha hk

/-- The file-existence guard fires on the first missing `.zip`/`.tif`
argument, before any directory is created. -/
theorem runGuards_error {fs : FS} {args : List String} {a : String}
    (h : args.find? (fun x => inputSuffix x && !fs.entries.contains x)
      = some a) :
    runGuards fs args =
      .error (.fileNotFound (String.append "Input file not found: " a)) := by
  unfold runGuards validate_file_exists
  rw [h]

/-- When every `.zip`/`.tif` argument exists, the guards succeed and
hand the body the filesystem produced by the directory-ensure pass. -/
theorem runGuards_ok {fs : FS} {args : List String}
    (h : ∀ x ∈ args, inputSuffix x = true → fs.entries.contains x = true) :
    runGuards fs args = .ok (validate_output_dir fs args) := by
  unfold runGuards validate_file_exists
  have hfind :
      args.find? (fun x => inputSuffix x && !fs.entries.contains x)
        = none := by
    rw [List.find?_eq_none]
    intro x hx
    intro hcontra
    rw [Bool.and_eq_true] at hcontra
    rw [h x hx hcontra.1] at hcontra
    simp at hcontra
  rw [hfind]

/-- A token yields no date exactly when it fails the shape test or its
first eight characters fail to parse as a calendar date. -/
theorem tokenDate_eq_none_iff {t : List Char} :
    tokenDate t = none ↔
      tokenShape t = false ∨ parseYYYYMMDD (t.take 8) = none := by
  unfold tokenDate
  cases h : tokenShape t with
  | true => simp [Option.map_eq_none']
  | false => simp

/-! ## Claim theorems -/

/-- C2 (counterexample): on the catalog
`["Beta0_VV", "Intensity_VV", "Beta0_VH"]` the spec's first-match rule
picks `"Beta0_VV"` for the VV role, but the code's loop (no `break`,
assignment overwritten on each match) picks `"Intensity_VV"`. -/
theorem C2_counterexample :
    specIntensityFirst ["Beta0_VV", "Intensity_VV", "Beta0_VH"]
      = (some "Beta0_VV", some "Beta0_VH") ∧
    resolveIntensityBands ["Beta0_VV", "Intensity_VV", "Beta0_VH"]
      = (some "Intensity_VV", some "Beta0_VH") ∧
    (some "Intensity_VV" : Option String) ≠ some "Beta0_VV" := by
  refine ⟨by decide, by decide, by decide⟩

/-- C2 (amended): under the intensity policy the band selected for the
VV role is the last band in catalog order matching the VV candidate
rule, and the band selected for the VH role is the last band matching
the VH rule but not the VV rule (the `elif` never reaches a VV match);
the pipeline then feeds the selected VV band to its BandSelect stage,
as the concrete run shows. -/
theorem C2_selects_last_match :
    (∀ names : List String,
      resolveIntensityBands names =
        (lastFind isVVBand names, lastFind isVHOnlyBand names)) ∧
    (∃ inp pid,
      Event.apply ⟨"BandSelect", [("sourceBands", .strs ["Intensity_VV"])],
          inp⟩ pid ∈
        (generate_intensity_maps
          (mkEngine ["Beta0_VV", "Intensity_VV", "Beta0_VH"]) {} sampleZip
          "Output" RunState.init).2.events) := by
  refine ⟨resolveIntensityBands_eq_lastFind, ⟨.one 7, 8, by decide⟩⟩

/-- C4: under the intensity policy, the run fails with the
band-resolution `RuntimeError` exactly when no VV band or no VH band is
resolved (each role, when filled, holds exactly one band); on
`["Beta0_VV","Beta0_VH","Intensity_HH"]` it selects `"Beta0_VV"` and
`"Beta0_VH"`, and on `["Beta0_HH"]` it fails. -/
theorem C4_resolution_failure :
    (∀ bands : List String,
      (generate_intensity_maps (mkEngine bands) {} sampleZip "Output"
          RunState.init).1
        = .error (.runtimeError "Could not find VV or VH intensity bands")
      ↔ ((resolveIntensityBands bands).1 = none ∨
         (resolveIntensityBands bands).2 = none)) ∧
    resolveIntensityBands ["Beta0_VV", "Beta0_VH", "Intensity_HH"]
      = (some "Beta0_VV", some "Beta0_VH") ∧
    (generate_intensity_maps (mkEngine ["Beta0_HH"]) {} sampleZip "Output"
        RunState.init).1
      = .error (.runtimeError "Could not find VV or VH intensity bands") := by
  refine ⟨?_, by decide, by decide⟩
  intro bands
  have hd : extract_date sampleZip = .ok "2024-07-20" := by decide
  simp only [generate_intensity_maps, andThen, liftE, readProduct, gpf1,
    writeProduct, mkEngine, hd]
  rcases hres : resolveIntensityBands bands with ⟨v1, v2⟩
  cases v1 <;> cases v2 <;> simp

/-- C4 (witness): the general equivalence applied to the concrete
catalog `["Beta0_HH"]`, whose resolution leaves both roles empty. -/
theorem C4_witness :
    (generate_intensity_maps (mkEngine ["Beta0_HH"]) {} sampleZip "Output"
        RunState.init).1
      = .error (.runtimeError "Could not find VV or VH intensity bands") :=
  (C4_resolution_failure.1 ["Beta0_HH"]).mpr (by decide)

/-- C5 (counterexample): `"19991231T000000"` is a delimiter-separated
token of the shape `{8 digits}T...` whose digits form the valid
calendar date 1999-12-31, yet `extract_date` raises `ValueError`
because the token does not start with `'2'`. -/
theorem C5_counterexample :
    specToken8T "19991231T000000".data = true ∧
    parseYYYYMMDD ("19991231T000000".data.take 8) = some (1999, 12, 31) ∧
    extract_date "19991231T000000"
      = .error (.valueError
          "Could not extract date from filename: 19991231T000000") := by
  refine ⟨by decide, by decide, by decide⟩

/-- C5 (amended): for every identifier containing a token of the shape
`{8 digits}T...` whose first digit is `'2'` and whose 8 digits form a
valid calendar date, `extract_date` succeeds, returning the
`YYYY-MM-DD` date of the first token that passes the code's shape test
and whose first 8 characters parse as a valid date; in particular for
the `"S1A_IW_SLC__1SDV_20240720T004052_..."` identifier it returns
`"2024-07-20"`. -/
theorem C5_extract_date_amended :
    (∀ (id : String) (t : List Char) (dt : Nat × Nat × Nat),
      t ∈ tokensOf id → specToken8T t = true → startsL ['2'] t = true →
      parseYYYYMMDD (t.take 8) = some dt →
      ∃ d l1 u l2, extract_date id = .ok d ∧
        tokensOf id = l1 ++ u :: l2 ∧ (∀ v ∈ l1, tokenDate v = none) ∧
        tokenDate u = some d) ∧
    extract_date sampleZip = .ok "2024-07-20" := by
  refine ⟨?_, by decide⟩
  intro id t dt hmem h8 h2 hp
  have ht : tokenDate t = some (formatDate dt) :=
    tokenDate_of_specToken h8 h2 hp
  have hne : firstDate (tokensOf id) ≠ none := by
    intro hn
    rw [firstDate_eq_none] at hn
    rw [hn t hmem] at ht
    exact Option.noConfusion ht
  obtain ⟨d, hd⟩ := Option.ne_none_iff_exists'.mp hne
  obtain ⟨l1, u, l2, heq, hall, hu⟩ := firstDate_eq_some.mp hd
  refine ⟨d, l1, u, l2, ?_, heq, hall, hu⟩
  unfold extract_date
  rw [hd]

/-- C5 (witness): the amended theorem applied to the sample identifier
and its token `"20240720T004052"`. -/
theorem C5_witness :
    ∃ d l1 u l2, extract_date sampleZip = .ok d ∧
      tokensOf sampleZip = l1 ++ u :: l2 ∧
      (∀ v ∈ l1, tokenDate v = none) ∧ tokenDate u = some d :=
  C5_extract_date_amended.1 sampleZip "20240720T004052".data (2024, 7, 20)
    (by decide) (by decide) (by decide) (by decide)

/-- C6: under the coherence policy the selected band is the first band
in catalog order whose lower-cased name contains `"coh"`; resolution
yields nothing exactly when no band matches; on
`["i_VV","q_VV","coh_VV"]` it selects `"coh_VV"` (and the pipeline
feeds it to BandSelect), and on `["i_VV","q_VV"]` the run fails with
the `RuntimeError`. -/
theorem C6_coherence_first_match :
    (∀ (names : List String) (b : String),
      resolveCoherenceBand names = some b ↔
        ∃ l1 l2, names = l1 ++ b :: l2 ∧ (∀ a ∈ l1, isCohBand a = false) ∧
          isCohBand b = true) ∧
    (∀ names : List String,
      resolveCoherenceBand names = none ↔
        ∀ a ∈ names, isCohBand a = false) ∧
    resolveCoherenceBand ["i_VV", "q_VV", "coh_VV"] = some "coh_VV" ∧
    (Event.apply ⟨"BandSelect", [("sourceBands", .strs ["coh_VV"])],
        .one 7⟩ 8 ∈
      (generate_coherence_map (mkEngine ["i_VV", "q_VV", "coh_VV"]) {}
        sampleZip sampleSlaveZip "Output" "VV" RunState.init).2.events) ∧
    (generate_coherence_map (mkEngine ["i_VV", "q_VV"]) {} sampleZip
        sampleSlaveZip "Output" "VV" RunState.init).1
      = .error (.runtimeError "No coherence band found in product!") := by
  refine ⟨?_, ?_, by decide, by decide, by decide⟩
  · intro names b
    exact find?_eq_some_first
  · intro names
    show names.find? isCohBand = none ↔ _
    rw [List.find?_eq_none]
    simp [Bool.not_eq_true]

/-- C6 (witness): the first-match characterization applied to the
concrete catalog `["i_VV","q_VV","coh_VV"]`. -/
theorem C6_witness :
    resolveCoherenceBand ["i_VV", "q_VV", "coh_VV"] = some "coh_VV" :=
  (C6_coherence_first_match.1 ["i_VV", "q_VV", "coh_VV"] "coh_VV").mpr
    ⟨["i_VV", "q_VV"], [], by decide, by decide, by decide⟩

/-- C7: `extract_date` fails with the `ValueError` carrying its
diagnostic message exactly when every delimiter-separated token either
fails the shape test (length ≥ 9, first character `'2'`, contains
`'T'`) or has first 8 characters that do not parse as a valid calendar
date. -/
theorem C7_extract_date_failure :
    ∀ id : String,
      extract_date id
        = .error (.valueError
            (String.append "Could not extract date from filename: " id))
      ↔ ∀ t ∈ tokensOf id,
          tokenShape t = false ∨ parseYYYYMMDD (t.take 8) = none := by
  intro id
  unfold extract_date
  cases h : firstDate (tokensOf id) with
  | none =>
    simp only [true_iff]
    rw [firstDate_eq_none] at h
    intro t ht
    exact tokenDate_eq_none_iff.mp (h t ht)
  | some d =>
    constructor
    · intro hcontra
      exact Except.noConfusion hcontra
    · intro hall
      have hnone : firstDate (tokensOf id) = none :=
        firstDate_eq_none.mpr
          (fun t ht => tokenDate_eq_none_iff.mpr (hall t ht))
      rw [h] at hnone
      exact Option.noConfusion hnone

/-- C7 (witness): an identifier with no shape-matching token fails. -/
theorem C7_witness :
    extract_date "foo.zip"
      = .error (.valueError
          "Could not extract date from filename: foo.zip") :=
  (C7_extract_date_failure "foo.zip").mpr (by decide)

/-- C1 (counterexample): a successful intensity run and a successful
coherence run each create product handles (ten resp. eleven) and
release none of them before returning. -/
theorem C1_counterexample :
    (generate_intensity_maps (mkEngine ["Beta0_VV", "Beta0_VH"]) {}
        sampleZip "Output" RunState.init).1
      = .ok ("Output/2024-07-20_vv.tif", "Output/2024-07-20_vh.tif") ∧
    createdIds (generate_intensity_maps (mkEngine ["Beta0_VV", "Beta0_VH"])
        {} sampleZip "Output" RunState.init).2
      = [0, 1, 2, 3, 4, 5, 6, 7, 8, 9] ∧
    releasedIds (generate_intensity_maps (mkEngine ["Beta0_VV", "Beta0_VH"])
        {} sampleZip "Output" RunState.init).2 = [] ∧
    (generate_coherence_map (mkEngine ["coh_VV"]) {} sampleZip
        sampleSlaveZip "Output" "VV" RunState.init).1
      = .ok "Output/2024-07-20_2024-08-01_coherence.tif" ∧
    createdIds (generate_coherence_map (mkEngine ["coh_VV"]) {} sampleZip
        sampleSlaveZip "Output" "VV" RunState.init).2
      = [0, 1, 2, 3, 4, 5, 6, 7, 8, 9, 10] ∧
    releasedIds (generate_coherence_map (mkEngine ["coh_VV"]) {} sampleZip
        sampleSlaveZip "Output" "VV" RunState.init).2 = [] := by
  refine ⟨by decide, by decide, by decide, by decide, by decide, by decide⟩

/-- C1 (amended): neither pipeline body ever releases an
`AcquisitionProduct`: on every run — every engine behavior, so success
and all failure paths alike — the set of released handles is empty when
the run returns, while created handles remain open. -/
theorem C1_no_release :
    (∀ (eng : Engine) (cfg : ProcessingConfig) (i o : String),
      releasedIds
        (generate_intensity_maps eng cfg i o RunState.init).2 = []) ∧
    (∀ (eng : Engine) (cfg : ProcessingConfig) (m s o pol : String),
      releasedIds
        (generate_coherence_map eng cfg m s o pol RunState.init).2 = []) :=
  ⟨releasedIds_intensity_nil, releasedIds_coherence_nil⟩

/-- C3 (counterexample): when the Terrain-Correction engine call raises
`"TC boom"`, the intensity run re-raises exactly that engine error — no
`PipelineStageError` wrapper, no stage name — and releases none of the
seven handles registered so far. -/
theorem C3_counterexample :
    (generate_intensity_maps
        (failTCEngine ["Beta0_VV", "Beta0_VH"] "TC boom") {} sampleZip
        "Output" RunState.init).1
      = .error (.engineError "TC boom") ∧
    createdIds (generate_intensity_maps
        (failTCEngine ["Beta0_VV", "Beta0_VH"] "TC boom") {} sampleZip
        "Output" RunState.init).2
      = [0, 1, 2, 3, 4, 5, 6] ∧
    releasedIds (generate_intensity_maps
        (failTCEngine ["Beta0_VV", "Beta0_VH"] "TC boom") {} sampleZip
        "Output" RunState.init).2 = [] := by
  refine ⟨by decide, by decide, by decide⟩

/-- C3 (amended): a failing transform-engine invocation propagates out
of either pipeline unchanged (the `except` clause logs and re-raises
the same exception; no `PipelineStageError` exists in the code), and no
cleanup of registered handles is performed on any path. -/
theorem C3_unwrapped_propagation :
    (∀ (msg : String) (cfg : ProcessingConfig),
      (generate_intensity_maps (failEngine msg) cfg sampleZip "Output"
          RunState.init).1 = .error (.engineError msg)) ∧
    (∀ (msg : String) (cfg : ProcessingConfig),
      (generate_coherence_map (failEngine msg) cfg sampleZip sampleSlaveZip
          "Output" "VV" RunState.init).1 = .error (.engineError msg)) ∧
    (∀ (eng : Engine) (cfg : ProcessingConfig) (i o : String),
      releasedIds
        (generate_intensity_maps eng cfg i o RunState.init).2 = []) ∧
    (∀ (eng : Engine) (cfg : ProcessingConfig) (m s o pol : String),
      releasedIds
        (generate_coherence_map eng cfg m s o pol RunState.init).2 = []) := by
  have hd1 : extract_date sampleZip = .ok "2024-07-20" := by decide
  have hd2 : extract_date sampleSlaveZip = .ok "2024-08-01" := by decide
  refine ⟨?_, ?_, releasedIds_intensity_nil, releasedIds_coherence_nil⟩
  · intro msg cfg
    simp [generate_intensity_maps, andThen, liftE, readProduct, gpf1,
      failEngine, hd1]
  · intro msg cfg
    simp [generate_coherence_map, andThen, liftE, readProduct, gpf1,
      failEngine, hd1, hd2]

/-- C8: at every guarded entry point the file-existence check runs
first — on a missing `.zip`/`.tif` argument the call fails with
`FileNotFoundError` before any directory is created and before any
transform stage begins — and otherwise the directory-ensure pass runs
next, creating every argument without a known file suffix; ensuring a
directory is idempotent and total, so it never fails on a pre-existing
directory. -/
theorem C8_guard_order :
    (∀ (fs : FS) (args : List String) (a : String),
      args.find? (fun x => inputSuffix x && !fs.entries.contains x)
        = some a →
      runGuards fs args =
        .error (.fileNotFound (String.append "Input file not found: " a))) ∧
    (∀ (fs : FS) (args : List String),
      (∀ x ∈ args, inputSuffix x = true → fs.entries.contains x = true) →
      runGuards fs args = .ok (validate_output_dir fs args) ∧
      ∀ a ∈ args, knownFileSuffix a = false →
        a ∈ (validate_output_dir fs args).entries) ∧
    (∀ (fs : FS) (p : String), mkdirP (mkdirP fs p) p = mkdirP fs p) ∧
    (∀ (eng : Engine) (cfg : ProcessingConfig) (fs : FS) (i o : String)
        (e : PyErr),
      runGuards fs [i, o] = .error e →
      intensity_entry eng cfg fs i o = ⟨.error e, fs, RunState.init⟩) ∧
    (∀ (eng : Engine) (cfg : ProcessingConfig) (fs : FS) (i o : String)
        (fs2 : FS),
      runGuards fs [i, o] = .ok fs2 →
      intensity_entry eng cfg fs i o =
        ⟨(generate_intensity_maps eng cfg i o RunState.init).1, fs2,
         (generate_intensity_maps eng cfg i o RunState.init).2⟩) := by
  refine ⟨?_, ?_, mkdirP_idem, ?_, ?_⟩
  · intro fs args a h
    exact runGuards_error h
  · intro fs args h
    exact ⟨runGuards_ok h, fun a ha hk => mem_vod_of_arg args fs a ha hk⟩
  · intro eng cfg fs i o e h
    unfold intensity_entry
    rw [h]
  · intro eng cfg fs i o fs2 h
    unfold intensity_entry
    rw [h]

/-- C8 (witness): with only `"in.zip"` on disk, the guards pass on
`("in.zip", "Output")` and create the output directory; and with an
empty filesystem they fail fast on the missing input. -/
theorem C8_witness :
    runGuards ⟨["in.zip"]⟩ ["in.zip", "Output"]
      = .ok (validate_output_dir ⟨["in.zip"]⟩ ["in.zip", "Output"]) ∧
    "Output" ∈ (validate_output_dir ⟨["in.zip"]⟩
      ["in.zip", "Output"]).entries ∧
    runGuards ⟨[]⟩ ["in.zip", "Output"]
      = .error (.fileNotFound "Input file not found: in.zip") :=
  ⟨(C8_guard_order.2.1 ⟨["in.zip"]⟩ ["in.zip", "Output"] (by decide)).1,
   (C8_guard_order.2.1 ⟨["in.zip"]⟩ ["in.zip", "Output"] (by decide)).2
     "Output" (by decide) (by decide),
   C8_guard_order.1 ⟨[]⟩ ["in.zip", "Output"] "in.zip" (by decide)⟩

/-- C9: every TOPSAR-Split call issued by a coherence run carries
exactly the run's `polarization` argument as `selectedPolarisations`;
the run is entirely independent of `PipelineConfig.polarizations`; the
concrete trace shows both the master and the slave split with the
argument (here `"HH"`); the intensity pipeline, by contrast, passes the
configured list joined with `","`. -/
theorem C9_coherence_polarization :
    (∀ (eng : Engine) (cfg : ProcessingConfig) (m s o pol : String)
        (c : Call) (pid : Nat),
      Event.apply c pid ∈
        (generate_coherence_map eng cfg m s o pol RunState.init).2.events →
      c.op = "TOPSAR-Split" → c.params = coherenceSplitParams cfg pol) ∧
    (∀ (eng : Engine) (cfg : ProcessingConfig) (ps : List String)
        (m s o pol : String) (st : RunState),
      generate_coherence_map eng { cfg with polarizations := ps } m s o pol
          st
        = generate_coherence_map eng cfg m s o pol st) ∧
    (Event.apply ⟨"TOPSAR-Split", coherenceSplitParams {} "HH", .one 0⟩ 2 ∈
      (generate_coherence_map (mkEngine ["coh_VV"]) {} sampleZip
        sampleSlaveZip "Output" "HH" RunState.init).2.events ∧
     Event.apply ⟨"TOPSAR-Split", coherenceSplitParams {} "HH", .one 1⟩ 3 ∈
      (generate_coherence_map (mkEngine ["coh_VV"]) {} sampleZip
        sampleSlaveZip "Output" "HH" RunState.init).2.events) ∧
    (Event.apply ⟨"TOPSAR-Split", intensitySplitParams {}, .one 0⟩ 1 ∈
      (generate_intensity_maps (mkEngine ["Beta0_VV", "Beta0_VH"]) {}
        sampleZip "Output" RunState.init).2.events ∧
     intensitySplitParams {} =
       [("subswath", .s "IW2"), ("selectedPolarisations", .s "VV,VH")]) := by
  refine ⟨?_, ?_, ⟨by decide, by decide⟩, ⟨by decide, by decide⟩⟩
  · intro eng cfg m s o pol c pid hmem hop
    obtain ⟨tail, he, hp⟩ :=
      evExt_coherence
        (P := fun e => ∀ c2 pid2, e = .apply c2 pid2 →
          c2.op = "TOPSAR-Split" → c2.params = coherenceSplitParams cfg pol)
        eng cfg m s o pol RunState.init
        (by intro q pid2 c2 pid3 heq; simp at heq)
        (by
          intro op params inp pid2 hsh c2 pid3 heq hop2
          injection heq with hc2 hpid
          rw [← hc2] at hop2
          rw [← hc2]
          simp only [] at hop2
          rcases hsh with ⟨h1, h2⟩ | ⟨h1, h2⟩ | ⟨h1, h2⟩ | ⟨h1, h2⟩ |
            ⟨h1, h2⟩ | ⟨h1, h2⟩ | ⟨h1, h2⟩
          · exact h2
          · rw [h1] at hop2; exact absurd hop2 (by decide)
          · rw [h1] at hop2; exact absurd hop2 (by decide)
          · rw [h1] at hop2; exact absurd hop2 (by decide)
          · rw [h1] at hop2; exact absurd hop2 (by decide)
          · rw [h1] at hop2; exact absurd hop2 (by decide)
          · rw [h1] at hop2; exact absurd hop2 (by decide))
        (by intro pid2 q g c2 pid3 heq; simp at heq)
    rw [he] at hmem
    have hmem2 : Event.apply c pid ∈ tail := by
      simpa [RunState.init] using hmem
    exact hp _ hmem2 c pid rfl hop
  · intro eng cfg ps m s o pol st
    rfl

/-- C9 (witness): the universal split-parameter property applied to the
master split event of the concrete `"HH"` run. -/
theorem C9_witness :
    Call.params ⟨"TOPSAR-Split", coherenceSplitParams {} "HH", .one 0⟩
      = coherenceSplitParams {} "HH" :=
  C9_coherence_polarization.1 (mkEngine ["coh_VV"]) {} sampleZip
    sampleSlaveZip "Output" "HH"
    ⟨"TOPSAR-Split", coherenceSplitParams {} "HH", .one 0⟩ 2
    (by decide) (by decide)

/-- C10: the directory-ensure guard creates every positional string
argument not ending in `.zip`/`.tif`/`.nc` as a directory before the
pipeline body runs — including the coherence polarization `"VV"` when
passed positionally, and an input scene path lacking those suffixes. -/
theorem C10_dir_ensure_all_args :
    (∀ (eng : Engine) (cfg : ProcessingConfig) (fs : FS)
        (m s o pol : String),
      (∀ x ∈ [m, s, o, pol], inputSuffix x = true →
        fs.entries.contains x = true) →
      (coherence_entry4 eng cfg fs m s o pol).fs
          = validate_output_dir fs [m, s, o, pol] ∧
      ∀ a ∈ [m, s, o, pol], knownFileSuffix a = false →
        a ∈ (coherence_entry4 eng cfg fs m s o pol).fs.entries) ∧
    "VV" ∈ (coherence_entry4 (mkEngine ["coh_VV"]) {} ⟨["m.zip", "s.zip"]⟩
      "m.zip" "s.zip" "out" "VV").fs.entries ∧
    "scene.SAFE" ∈ (intensity_entry (mkEngine ["coh_VV"]) {} ⟨[]⟩
      "scene.SAFE" "Output").fs.entries := by
  refine ⟨?_, by decide, by decide⟩
  intro eng cfg fs m s o pol h
  have hok : runGuards fs [m, s, o, pol]
      = .ok (validate_output_dir fs [m, s, o, pol]) := runGuards_ok h
  unfold coherence_entry4
  rw [hok]
  refine ⟨rfl, ?_⟩
  intro a ha hk
  exact mem_vod_of_arg [m, s, o, pol] fs a ha hk

/-- C10 (witness): the general statement applied to the concrete
four-positional-argument coherence call. -/
theorem C10_witness :
    "VV" ∈ (coherence_entry4 (mkEngine ["coh_VV"]) {}
      ⟨["m.zip", "s.zip"]⟩ "m.zip" "s.zip" "out" "VV").fs.entries :=
  ((C10_dir_ensure_all_args.1 (mkEngine ["coh_VV"]) {} ⟨["m.zip", "s.zip"]⟩
      "m.zip" "s.zip" "out" "VV" (by decide)).2) "VV" (by decide) (by decide)
